import Mathlib

/-!
Shallow embedding of the client-side synchronization and mutation core of
the Everhour dashboard (src/frontend/src/App.js, the `Dashboard` component).

JavaScript numbers are embedded as rationals (`Rat`); employee identifiers
are strings (Everhour external ids); JSON bodies arriving from the server
are assumed parseable (the `.json()` step is not modelled; every response
carries its already-parsed body).  Asynchronous behaviour (the event loop,
the 30-second interval, in-flight fetches) is modelled as explicit step
functions on a state type, with each remote call's outcome supplied as an
explicit input.
-/

namespace EverhourDashboard

/-- The `stats` slice of the dashboard state (App.js lines 8–15): aggregate
counters with the defaults used by the initial `useState` call. -/
structure Stats where
  total_employees : Nat
  active_employees : Nat
  last_run : Option String
  next_run : Option String
  total_hours_added_this_week : Rat
  total_hours_added_this_month : Rat
deriving DecidableEq

/-- An employee row as served by `GET /api/employees` and rendered by the
employees table (App.js lines 369–443). -/
structure Employee where
  id : String
  name : String
  email : Option String
  multiplier : Rat
  active : Bool
deriving DecidableEq

/-- The job configuration singleton served by `GET /api/config`. -/
structure Config where
  run_hour : Nat
  run_minute : Nat
  dry_run : Bool
deriving DecidableEq

/-- One operation-log row as served by `GET /api/logs?limit=50`. -/
structure LogEntry where
  id : Nat
  created_at : String
  employee_name : String
  original_hours : Rat
  updated_hours : Rat
  status : String
deriving DecidableEq

/-- The Snapshot of the spec: the four remote-resource slices of the
dashboard state (`stats`, `employees`, `config`, `logs`). -/
structure Snapshot where
  stats : Stats
  employees : List Employee
  config : Option Config
  logs : List LogEntry
deriving DecidableEq

/-- The raw JSON body of a successful `GET /api/stats` response, before the
falsy-coercion defaulting applied at App.js lines 42–49.  `none` stands for
an absent or `null` field. -/
structure StatsPayload where
  total_employees : Option Nat
  active_employees : Option Nat
  last_run : Option String
  next_run : Option String
  total_hours_added_this_week : Option Rat
  total_hours_added_this_month : Option Rat
deriving DecidableEq

/-- The outcome of one read call: either the promise rejected with no
response obtained (transport error), or a response arrived carrying its
HTTP-success flag (`res.ok`) and parsed body. -/
inductive FetchResult (α : Type) where
  | transportError : FetchResult α
  | response (ok : Bool) (body : α) : FetchResult α
deriving DecidableEq

/-- The joint outcome of the four concurrent reads issued by `fetchData`
(App.js lines 33–38). -/
structure FetchOutcome where
  statsRes : FetchResult StatsPayload
  employeesRes : FetchResult (List Employee)
  configRes : FetchResult Config
  logsRes : FetchResult (List LogEntry)
deriving DecidableEq

/-- The full local state of the `Dashboard` component relevant to the core:
the four snapshot slices plus the transient UI state declared by the
`useState` calls at App.js lines 8–23 (the purely presentational
`activeTab` is omitted). -/
structure DashState where
  stats : Stats
  employees : List Employee
  config : Option Config
  logs : List LogEntry
  loading : Bool
  showAddEmployee : Bool
  newEmployeeId : String
  editingEmployee : Option String
deriving DecidableEq

/-- Projection of the component state onto the spec's Snapshot. -/
def DashState.snapshot (st : DashState) : Snapshot :=
  { stats := st.stats, employees := st.employees, config := st.config, logs := st.logs }

/-- JavaScript `x || null` on a string field: the empty string is falsy and
collapses to `null`. -/
def orNull (x : Option String) : Option String :=
  match x with
  | some s => if s.isEmpty then none else some s
  | none => none

/-- The defaulting applied to a successful stats payload at App.js lines
42–49: numeric fields `|| 0`, timestamp fields `|| null`. -/
def applyStats (d : StatsPayload) : Stats :=
  { total_employees := d.total_employees.getD 0
    active_employees := d.active_employees.getD 0
    last_run := orNull d.last_run
    next_run := orNull d.next_run
    total_hours_added_this_week := d.total_hours_added_this_week.getD 0
    total_hours_added_this_month := d.total_hours_added_this_month.getD 0 }

/-- Whether a read failed at the transport level (its promise rejected). -/
def FetchResult.isTransportError {α : Type} : FetchResult α → Bool
  | .transportError => true
  | .response _ _ => false

/-- `Promise.all` rejects as soon as any of the four fetches rejects, so a
single transport error sends `fetchData` to its `catch` block before any
state setter runs. -/
def anyTransportError (o : FetchOutcome) : Bool :=
  o.statsRes.isTransportError || o.employeesRes.isTransportError ||
    o.configRes.isTransportError || o.logsRes.isTransportError

/-- The state transformation performed by one completed `fetchData` cycle
(App.js lines 26–69): on any transport error the `catch` block runs and only
`loading` is cleared; otherwise each of the four slices is overwritten
exactly when its response is `ok`, in source order, and `loading` is
cleared at the end. -/
def fetchData (st : DashState) (o : FetchOutcome) : DashState :=
  if anyTransportError o then
    { st with loading := false }
  else
    let st1 := match o.statsRes with
      | .response true d => { st with stats := applyStats d }
      | _ => st
    let st2 := match o.employeesRes with
      | .response true es => { st1 with employees := es }
      | _ => st1
    let st3 := match o.configRes with
      | .response true c => { st2 with config := some c }
      | _ => st2
    let st4 := match o.logsRes with
      | .response true ls => { st3 with logs := ls }
      | _ => st3
    { st4 with loading := false }

/-- The partial-update body of `PATCH /api/employees/:id`: the UI sends
either `multiplier` alone (commit of an edit, App.js line 406) or
`active` alone (the toggle at App.js line 428). -/
structure EmployeeUpdates where
  multiplier : Option Rat
  active : Option Bool
deriving DecidableEq

/-- The outcome of one write call: transport error (promise rejected) or a
response with its HTTP-success flag and the optional `detail` string of the
error body read at App.js line 94. -/
inductive WriteResult where
  | transportError : WriteResult
  | response (ok : Bool) (detail : Option String) : WriteResult
deriving DecidableEq

/-- The externally observable actions a mutation handler performs, in
order: the network requests it issues, the `fetchData` refresh cycles it
starts, and the `alert` dialogs it shows. -/
inductive Effect where
  | postEmployee (employeeId : String) : Effect
  | patchEmployee (id : String) (updates : EmployeeUpdates) : Effect
  | delEmployee (id : String) : Effect
  | putConfig (c : Config) : Effect
  | postTriggerUpdate : Effect
  | refresh : Effect
  | alertMsg (msg : String) : Effect
deriving DecidableEq

/-- `addEmployee` (App.js lines 78–101): unconditionally POSTs the current
`newEmployeeId` (there is no client-side validation); on an ok response it
closes the add form, clears the input and starts one refresh; on a non-ok
response it alerts with the server `detail` or a fallback; on a transport
error it alerts a generic connection message. -/
def addEmployee (st : DashState) (r : WriteResult) : DashState × List Effect :=
  let req := Effect.postEmployee st.newEmployeeId
  match r with
  | .transportError =>
      (st, [req, Effect.alertMsg "Błąd połączenia z serwerem."])
  | .response true _ =>
      ({ st with showAddEmployee := false, newEmployeeId := "" }, [req, Effect.refresh])
  | .response false d =>
      (st, [req, Effect.alertMsg ("Nie można dodać pracownika: " ++ d.getD "Sprawdź ID.")])

/-- `updateEmployee` (App.js lines 104–122): PATCHes the given employee; on
an ok response it clears `editingEmployee` (whichever row was being edited)
and starts one refresh; a non-ok response or transport error is silently
ignored apart from a console log. -/
def updateEmployee (st : DashState) (id : String) (u : EmployeeUpdates)
    (r : WriteResult) : DashState × List Effect :=
  let req := Effect.patchEmployee id u
  match r with
  | .transportError => (st, [req])
  | .response true _ => ({ st with editingEmployee := none }, [req, Effect.refresh])
  | .response false _ => (st, [req])

/-- `deleteEmployee` (App.js lines 125–142): first asks `window.confirm`;
declining returns before any request.  On an ok response it starts one
refresh; failures are silently ignored. -/
def deleteEmployee (st : DashState) (id : String) (confirmed : Bool)
    (r : WriteResult) : DashState × List Effect :=
  if !confirmed then (st, [])
  else
    let req := Effect.delEmployee id
    match r with
    | .transportError => (st, [req])
    | .response true _ => (st, [req, Effect.refresh])
    | .response false _ => (st, [req])

/-- `updateConfig` (App.js lines 145–163): PUTs the new config; on an ok
response it starts one refresh and alerts a confirmation message; failures
are silently ignored. -/
def updateConfig (st : DashState) (c : Config) (r : WriteResult) :
    DashState × List Effect :=
  let req := Effect.putConfig c
  match r with
  | .transportError => (st, [req])
  | .response true _ =>
      (st, [req, Effect.refresh, Effect.alertMsg "Konfiguracja zaktualizowana!"])
  | .response false _ => (st, [req])

/-- `triggerUpdate` (App.js lines 166–183): first asks `window.confirm`;
declining returns before any request.  On an ok response it only alerts —
it does not start a refresh; failures are silently ignored. -/
def triggerUpdate (st : DashState) (confirmed : Bool) (r : WriteResult) :
    DashState × List Effect :=
  if !confirmed then (st, [])
  else
    let req := Effect.postTriggerUpdate
    match r with
    | .transportError => (st, [req])
    | .response true _ => (st, [req, Effect.alertMsg "Aktualizacja została uruchomiona!"])
    | .response false _ => (st, [req])

/-- Whether an effect is a `fetchData` refresh invocation. -/
def Effect.isRefresh : Effect → Bool
  | .refresh => true
  | _ => false

/-- Number of refresh cycles started by an effect list. -/
def countRefresh (effs : List Effect) : Nat :=
  (effs.filter Effect.isRefresh).length

/-- Whether an effect is an `alert` shown to the operator. -/
def Effect.isAlert : Effect → Bool
  | .alertMsg _ => true
  | _ => false

/-- Whether any alert is shown by an effect list. -/
def hasAlert (effs : List Effect) : Bool :=
  effs.any Effect.isAlert

/-- State of the polling machinery set up by the `useEffect` at App.js
lines 71–75: the component state, whether the interval is still installed
(`clearInterval` has not run), and how many `fetchData` calls are in
flight.  `setInterval` fires regardless of whether the previous cycle has
completed, and the cleanup only clears the interval — it does not touch
in-flight calls. -/
structure SchedState where
  dash : DashState
  timerActive : Bool
  inFlight : Nat
deriving DecidableEq

/-- Event-loop events relevant to the scheduler: an interval tick, the
`useEffect` cleanup (`clearInterval`), and the completion of an in-flight
`fetchData` call delivering its joint read outcome. -/
inductive PollEvent where
  | tick : PollEvent
  | stop : PollEvent
  | complete (o : FetchOutcome) : PollEvent
deriving DecidableEq

/-- One event-loop step.  Returns the new state and the number of fetch
attempts started by the step.  A tick starts a fetch only while the
interval is installed; `stop` clears the interval; a completion applies
`fetchData` unconditionally — the code contains no check between the
responses arriving and the state setters running. -/
def pollStep (st : SchedState) (e : PollEvent) : SchedState × Nat :=
  match e with
  | .tick =>
      if st.timerActive then ({ st with inFlight := st.inFlight + 1 }, 1)
      else (st, 0)
  | .stop => ({ st with timerActive := false }, 0)
  | .complete o =>
      if 0 < st.inFlight then
        ({ st with dash := fetchData st.dash o, inFlight := st.inFlight - 1 }, 0)
      else (st, 0)

/-- Run a sequence of event-loop steps, totalling the fetch attempts
started. -/
def pollRun (st : SchedState) : List PollEvent → SchedState × Nat
  | [] => (st, 0)
  | e :: es =>
      ((pollRun (pollStep st e).1 es).1,
       (pollStep st e).2 + (pollRun (pollStep st e).1 es).2)

/-- One slice commit inside a `fetchData` cycle.  Each `set…` call at
App.js lines 42–61 runs in its own promise continuation (an `await`
separates consecutive commits), so commits of concurrent cycles can
interleave. -/
inductive MicroStep where
  | commitStats (d : Stats) : MicroStep
  | commitEmployees (es : List Employee) : MicroStep
  | commitConfig (c : Config) : MicroStep
  | commitLogs (ls : List LogEntry) : MicroStep
deriving DecidableEq

/-- Apply one slice commit to a snapshot. -/
def applyMicro (s : Snapshot) : MicroStep → Snapshot
  | .commitStats d => { s with stats := d }
  | .commitEmployees es => { s with employees := es }
  | .commitConfig c => { s with config := some c }
  | .commitLogs ls => { s with logs := ls }

/-- Apply a sequence of slice commits in order. -/
def applyMicros (s : Snapshot) : List MicroStep → Snapshot
  | [] => s
  | m :: ms => applyMicros (applyMicro s m) ms

/-- The commit sequence one `fetchData` cycle performs on the snapshot: no
commits on a transport error (the `catch` runs before any setter), else one
commit per ok response, in source order. -/
def cycleSteps (o : FetchOutcome) : List MicroStep :=
  if anyTransportError o then []
  else
    (match o.statsRes with
      | .response true d => [MicroStep.commitStats (applyStats d)]
      | _ => []) ++
    (match o.employeesRes with
      | .response true es => [MicroStep.commitEmployees es]
      | _ => []) ++
    (match o.configRes with
      | .response true c => [MicroStep.commitConfig c]
      | _ => []) ++
    (match o.logsRes with
      | .response true ls => [MicroStep.commitLogs ls]
      | _ => [])

/-- Checks that `cs` is an interleaving of `as` and `bs` (each preserved in
order). -/
def isInterleavingB : List MicroStep → List MicroStep → List MicroStep → Bool
  | [], bs, cs => bs == cs
  | as, [], cs => as == cs
  | _ :: _, _ :: _, [] => false
  | a :: as, b :: bs, c :: cs =>
      (a == c && isInterleavingB as (b :: bs) cs) ||
      (b == c && isInterleavingB (a :: as) bs cs)

/-- The initial stats value of the `useState` call at App.js lines 8–15. -/
def initialStats : Stats :=
  { total_employees := 0, active_employees := 0, last_run := none, next_run := none
    total_hours_added_this_week := 0, total_hours_added_this_month := 0 }

/-- The initial component state (App.js lines 8–23). -/
def dState0 : DashState :=
  { stats := initialStats, employees := [], config := none, logs := []
    loading := true, showAddEmployee := false, newEmployeeId := ""
    editingEmployee := none }

/-- A component state in which the row of employee id `"A"` is being
edited. -/
def dStateEditing : DashState := { dState0 with editingEmployee := some "A" }

/-- The body the active-toggle at App.js line 428 sends. -/
def updActive : EmployeeUpdates := { multiplier := none, active := some true }

/-- A concrete employee row. -/
def emp1 : Employee :=
  { id := "e1", name := "Anna", email := none, multiplier := 1, active := true }

/-- A second concrete employee row. -/
def emp2 : Employee :=
  { id := "e2", name := "Beti", email := none, multiplier := 2, active := false }

/-- A concrete log entry. -/
def log1 : LogEntry :=
  { id := 1, created_at := "2026-01-01T00:00:00Z", employee_name := "Anna"
    original_hours := 1, updated_hours := 2, status := "success" }

/-- A second concrete log entry. -/
def log2 : LogEntry :=
  { id := 2, created_at := "2026-01-02T00:00:00Z", employee_name := "Beti"
    original_hours := 3, updated_hours := 4, status := "failure" }

/-- A read outcome whose stats fetch rejected at the transport level. -/
def oTransport : FetchOutcome :=
  { statsRes := FetchResult.transportError
    employeesRes := FetchResult.response true [emp1]
    configRes := FetchResult.response true { run_hour := 1, run_minute := 0, dry_run := true }
    logsRes := FetchResult.response true [log1] }

instance : Inhabited StatsPayload :=
  ⟨{ total_employees := none, active_employees := none, last_run := none
     next_run := none, total_hours_added_this_week := none
     total_hours_added_this_month := none }⟩

instance : Inhabited Config := ⟨{ run_hour := 0, run_minute := 0, dry_run := true }⟩

/-- A read outcome delivering a new employee list `[emp1]` and leaving the
other slices on non-ok responses. -/
def oEmp1 : FetchOutcome :=
  { statsRes := FetchResult.response false default
    employeesRes := FetchResult.response true [emp1]
    configRes := FetchResult.response false default
    logsRes := FetchResult.response false default }

/-- A read outcome whose employee list comes back ok and empty while the
other reads return non-ok responses. -/
def oEmptyEmployees : FetchOutcome :=
  { statsRes := FetchResult.response false default
    employeesRes := FetchResult.response true []
    configRes := FetchResult.response false default
    logsRes := FetchResult.response false default }

/-- Claim C1: in a fetch cycle in which exactly one of the four reads
completes with a non-success HTTP status while the other three succeed, the
three succeeding slices are overwritten with the newly fetched values and
the failing slice keeps its prior value (one conjunct per choice of failing
read; `loading` is also cleared, as the code always does). -/
theorem C1_partial_failure_isolation (st : DashState) (sb : StatsPayload)
    (es : List Employee) (c : Config) (ls : List LogEntry) :
    (∀ b, fetchData st
        { statsRes := FetchResult.response false b
          employeesRes := FetchResult.response true es
          configRes := FetchResult.response true c
          logsRes := FetchResult.response true ls } =
      { st with employees := es, config := some c, logs := ls, loading := false }) ∧
    (∀ b, fetchData st
        { statsRes := FetchResult.response true sb
          employeesRes := FetchResult.response false b
          configRes := FetchResult.response true c
          logsRes := FetchResult.response true ls } =
      { st with stats := applyStats sb, config := some c, logs := ls, loading := false }) ∧
    (∀ b, fetchData st
        { statsRes := FetchResult.response true sb
          employeesRes := FetchResult.response true es
          configRes := FetchResult.response false b
          logsRes := FetchResult.response true ls } =
      { st with stats := applyStats sb, employees := es, logs := ls, loading := false }) ∧
    (∀ b, fetchData st
        { statsRes := FetchResult.response true sb
          employeesRes := FetchResult.response true es
          configRes := FetchResult.response true c
          logsRes := FetchResult.response false b } =
      { st with stats := applyStats sb, employees := es, config := some c, loading := false }) :=
  ⟨fun _ => rfl, fun _ => rfl, fun _ => rfl, fun _ => rfl⟩

/-- Claim C2: if any of the four reads fails at the transport level, the
whole cycle lands in the catch block and the Snapshot (all four slices) is
unchanged by value. -/
theorem C2_transport_failure_retains_snapshot (st : DashState) (o : FetchOutcome)
    (h : o.statsRes = FetchResult.transportError ∨
         o.employeesRes = FetchResult.transportError ∨
         o.configRes = FetchResult.transportError ∨
         o.logsRes = FetchResult.transportError) :
    (fetchData st o).snapshot = st.snapshot := by
  have ht : anyTransportError o = true := by
    rcases h with h | h | h | h <;>
      simp [anyTransportError, FetchResult.isTransportError, h]
  simp [fetchData, ht, DashState.snapshot]

/-- Witness for C2 at a concrete state and a concrete transport-failed
outcome. -/
theorem C2_transport_failure_retains_snapshot_witness :
    (fetchData dState0 oTransport).snapshot = dState0.snapshot :=
  C2_transport_failure_retains_snapshot dState0 oTransport (Or.inl rfl)

/-- Claim C3 counterexample: a successful (2xx) trigger-run response does
not trigger a refresh cycle — `triggerUpdate` only alerts on success, so
the refresh count is 0, not 1 as the claim requires for all five writes. -/
theorem C3_counterexample :
    countRefresh (triggerUpdate dState0 true (WriteResult.response true none)).2 ≠ 1 := by
  decide

/-- Claim C3 (amended): a successful response to add-employee,
patch-employee, delete-employee or put-config triggers exactly one refresh
cycle after the response resolves; a successful trigger-run triggers none. -/
theorem C3_refresh_after_write (st : DashState) (id : String) (u : EmployeeUpdates)
    (c : Config) (d : Option String) :
    countRefresh (addEmployee st (WriteResult.response true d)).2 = 1 ∧
    countRefresh (updateEmployee st id u (WriteResult.response true d)).2 = 1 ∧
    countRefresh (deleteEmployee st id true (WriteResult.response true d)).2 = 1 ∧
    countRefresh (updateConfig st c (WriteResult.response true d)).2 = 1 ∧
    countRefresh (triggerUpdate st true (WriteResult.response true d)).2 = 0 :=
  ⟨rfl, rfl, rfl, rfl, rfl⟩

/-- Claim C4 counterexample: a non-success patch-employee response is not
surfaced to the operator — `updateEmployee` shows no alert at all on a
non-ok response. -/
theorem C4_counterexample :
    hasAlert (updateEmployee dStateEditing "e1" updActive
      (WriteResult.response false (some "boom"))).2 = false := by
  decide

/-- Claim C4 (amended): on a non-success response, add-employee alerts with
the server-supplied detail when present (falling back to a generic
message), while patch-employee, delete-employee, put-config and
trigger-run silently ignore the failure; in all five cases no refresh is
triggered and no local state is mutated. -/
theorem C4_mutation_failure (st : DashState) (id : String) (u : EmployeeUpdates)
    (c : Config) (d : Option String) :
    addEmployee st (WriteResult.response false d) =
      (st, [Effect.postEmployee st.newEmployeeId,
            Effect.alertMsg ("Nie można dodać pracownika: " ++ d.getD "Sprawdź ID.")]) ∧
    updateEmployee st id u (WriteResult.response false d) =
      (st, [Effect.patchEmployee id u]) ∧
    deleteEmployee st id true (WriteResult.response false d) =
      (st, [Effect.delEmployee id]) ∧
    updateConfig st c (WriteResult.response false d) =
      (st, [Effect.putConfig c]) ∧
    triggerUpdate st true (WriteResult.response false d) =
      (st, [Effect.postTriggerUpdate]) :=
  ⟨rfl, rfl, rfl, rfl, rfl⟩

/-- Claim C5 counterexample: with the row of id `"A"` mid-edit, a
successful active-toggle patch for the different id `"e2"` resets the edit
state to `none` instead of leaving it at `some "A"` — `updateEmployee`
calls the edit-state reset on every successful patch. -/
theorem C5_counterexample :
    dStateEditing.editingEmployee = some "A" ∧
    (updateEmployee dStateEditing "e2" updActive
      (WriteResult.response true none)).1.editingEmployee ≠ some "A" := by
  exact ⟨rfl, by decide⟩

/-- Claim C5 (amended): every successful patch-employee — for any target
id, including an active-toggle for a row other than the one being edited —
resets the edit state to not-editing (`editingEmployee := none`). -/
theorem C5_patch_resets_edit_state (st : DashState) (id : String)
    (u : EmployeeUpdates) (d : Option String) :
    (updateEmployee st id u (WriteResult.response true d)).1.editingEmployee = none :=
  rfl

/-- Claim C6 counterexample: with the row of id `"A"` mid-edit, a fetch
cycle whose new employee list is empty (id `"A"` absent) leaves the edit
state at `some "A"` — it does not transition to not-editing. -/
theorem C6_counterexample :
    dStateEditing.editingEmployee = some "A" ∧
    (fetchData dStateEditing oEmptyEmployees).employees = [] ∧
    (fetchData dStateEditing oEmptyEmployees).editingEmployee = some "A" := by
  exact ⟨rfl, rfl, rfl⟩

/-- Claim C6 (amended): a Snapshot replacement never modifies the edit
state — `fetchData` leaves `editingEmployee` unchanged for every outcome,
even when the edited id is absent from the new employee list; no stale-edit
eviction exists. -/
theorem C6_fetch_preserves_edit_state (st : DashState) (o : FetchOutcome) :
    (fetchData st o).editingEmployee = st.editingEmployee := by
  obtain ⟨rs, re, rc, rl⟩ := o
  rcases rs with _ | ⟨_ | _, _⟩ <;> rcases re with _ | ⟨_ | _, _⟩ <;>
    rcases rc with _ | ⟨_ | _, _⟩ <;> rcases rl with _ | ⟨_ | _, _⟩ <;> rfl

/-- Claim C7: declining the confirmation of delete-employee or trigger-run
is a no-op — state unchanged and no effects, in particular no network call;
and when confirmed, the network request is the first effect issued. -/
theorem C7_confirmation_gate (st : DashState) (id : String) (r : WriteResult) :
    deleteEmployee st id false r = (st, []) ∧
    triggerUpdate st false r = (st, []) ∧
    (deleteEmployee st id true r).2.head? = some (Effect.delEmployee id) ∧
    (triggerUpdate st true r).2.head? = some Effect.postTriggerUpdate := by
  refine ⟨rfl, rfl, ?_, ?_⟩ <;> rcases r with _ | ⟨_ | _, d⟩ <;> rfl

/-- Claim C8 counterexample: with an empty external identifier in the add
form, `addEmployee` still issues the POST (carrying the empty id) — no
non-emptiness validation precedes the network call. -/
theorem C8_counterexample :
    dState0.newEmployeeId = "" ∧
    (addEmployee dState0 (WriteResult.response false none)).2.head? =
      some (Effect.postEmployee "") := by
  exact ⟨rfl, rfl⟩

/-- Claim C8 (amended): add-employee performs no client-side validation of
the external identifier: for every state and write outcome, its first
effect is the POST carrying the current (possibly empty) identifier. -/
theorem C8_no_validation (st : DashState) (r : WriteResult) :
    (addEmployee st r).2.head? = some (Effect.postEmployee st.newEmployeeId) := by
  rcases r with _ | ⟨_ | _, d⟩ <;> rfl

/-- A scheduler state with the interval installed and one fetch in
flight. -/
def sched1 : SchedState := { dash := dState0, timerActive := true, inFlight := 1 }

/-- A scheduler state after `clearInterval`, with one fetch still in
flight. -/
def schedStopped : SchedState := { dash := dState0, timerActive := false, inFlight := 1 }

/-- A scheduler step taken while the interval is cleared starts no fetch
attempt and leaves the interval cleared. -/
theorem pollStep_stopped (st : SchedState) (e : PollEvent)
    (h : st.timerActive = false) :
    (pollStep st e).2 = 0 ∧ (pollStep st e).1.timerActive = false := by
  cases e with
  | tick => simp [pollStep, h]
  | stop => exact ⟨rfl, rfl⟩
  | complete o =>
      simp only [pollStep]
      split <;> exact ⟨rfl, h⟩

/-- No event sequence run from a cleared-interval state starts any fetch
attempt. -/
theorem pollRun_stopped (st : SchedState) (es : List PollEvent)
    (h : st.timerActive = false) :
    (pollRun st es).2 = 0 := by
  induction es generalizing st with
  | nil => rfl
  | cons e es ih =>
      have hs := pollStep_stopped st e h
      simp [pollRun, hs.1, ih _ hs.2]

/-- Claim C9 counterexample: a fetch in flight when the interval is cleared
is not discarded — completing it after the stop still changes the
Snapshot. -/
theorem C9_counterexample :
    (pollStep (pollStep sched1 PollEvent.stop).1 (PollEvent.complete oEmp1)).1.dash.snapshot ≠
      sched1.dash.snapshot := by
  decide

/-- Claim C9 (amended): after the interval is cleared no event starts a
further fetch attempt, but the completion of a fetch that was in flight at
the moment of cancellation still applies its result via `fetchData` — the
code has no post-cancellation discard check. -/
theorem C9_stop_semantics (st : SchedState) (es : List PollEvent) (o : FetchOutcome)
    (hstop : st.timerActive = false) (hin : 0 < st.inFlight) :
    (pollRun st es).2 = 0 ∧
    (pollStep st (PollEvent.complete o)).1.dash = fetchData st.dash o := by
  refine ⟨pollRun_stopped st es hstop, ?_⟩
  simp [pollStep, hin]

/-- Witness for C9 (amended) at a concrete stopped scheduler state with one
in-flight fetch. -/
theorem C9_stop_semantics_witness :
    (pollRun schedStopped [PollEvent.tick, PollEvent.complete oEmp1]).2 = 0 ∧
    (pollStep schedStopped (PollEvent.complete oEmp1)).1.dash =
      fetchData schedStopped.dash oEmp1 :=
  C9_stop_semantics schedStopped [PollEvent.tick, PollEvent.complete oEmp1] oEmp1
    rfl (by decide)

/-- Applying a concatenation of commit sequences composes. -/
theorem applyMicros_append (s : Snapshot) (ms ns : List MicroStep) :
    applyMicros s (ms ++ ns) = applyMicros (applyMicros s ms) ns := by
  induction ms generalizing s with
  | nil => rfl
  | cons m ms ih => simp [applyMicros, ih]

/-- One completed, non-interleaved `fetchData` cycle changes the snapshot
exactly by its commit sequence `cycleSteps`. -/
theorem fetchData_snapshot_micro (st : DashState) (o : FetchOutcome) :
    (fetchData st o).snapshot = applyMicros st.snapshot (cycleSteps o) := by
  obtain ⟨rs, re, rc, rl⟩ := o
  rcases rs with _ | ⟨_ | _, _⟩ <;> rcases re with _ | ⟨_ | _, _⟩ <;>
    rcases rc with _ | ⟨_ | _, _⟩ <;> rcases rl with _ | ⟨_ | _, _⟩ <;> rfl

/-- The initial snapshot value. -/
def snap0 : Snapshot := dState0.snapshot

/-- First overlapping cycle: delivers employee list `[emp1]` and log list
`[log1]`, the other two reads non-ok. -/
def oA : FetchOutcome :=
  { statsRes := FetchResult.response false default
    employeesRes := FetchResult.response true [emp1]
    configRes := FetchResult.response false default
    logsRes := FetchResult.response true [log1] }

/-- Second overlapping cycle: delivers employee list `[emp2]` and log list
`[log2]`, the other two reads non-ok. -/
def oB : FetchOutcome :=
  { statsRes := FetchResult.response false default
    employeesRes := FetchResult.response true [emp2]
    configRes := FetchResult.response false default
    logsRes := FetchResult.response true [log2] }

/-- An interleaving of the commits of cycles `oA` and `oB` as the event
loop may schedule them when the cycles overlap: cycle A commits its
employees, cycle B commits its employees and logs, then cycle A commits its
logs. -/
def msHybrid : List MicroStep :=
  [MicroStep.commitEmployees [emp1], MicroStep.commitEmployees [emp2],
   MicroStep.commitLogs [log2], MicroStep.commitLogs [log1]]

/-- Claim C10 counterexample: `msHybrid` is an interleaving of the commit
sequences of cycles `oA` and `oB` (each slice commit is a separate promise
continuation and the 30-second interval does not wait for the previous
cycle), and the snapshot it produces — employees from `oB`, logs from
`oA` — differs from every completed cycle's merged result (either single
cycle, or the two cycles completed in either order). -/
theorem C10_counterexample :
    isInterleavingB (cycleSteps oA) (cycleSteps oB) msHybrid = true ∧
    applyMicros snap0 msHybrid ≠ applyMicros snap0 (cycleSteps oA) ∧
    applyMicros snap0 msHybrid ≠ applyMicros snap0 (cycleSteps oB) ∧
    applyMicros snap0 msHybrid ≠
      applyMicros (applyMicros snap0 (cycleSteps oA)) (cycleSteps oB) ∧
    applyMicros snap0 msHybrid ≠
      applyMicros (applyMicros snap0 (cycleSteps oB)) (cycleSteps oA) := by
  decide

/-- Claim C10 (amended): when fetch cycles do not overlap — their commits
run whole, one cycle after another — the snapshot equals the sequential
composition of the cycles' merged results; atomicity holds only in that
non-interleaved case. -/
theorem C10_sequential_cycles (st : DashState) (os : List FetchOutcome) :
    (os.foldl fetchData st).snapshot =
      applyMicros st.snapshot (os.map cycleSteps).flatten := by
  induction os generalizing st with
  | nil => rfl
  | cons o os ih =>
      calc ((o :: os).foldl fetchData st).snapshot
          = applyMicros (fetchData st o).snapshot (os.map cycleSteps).flatten :=
            ih (fetchData st o)
        _ = applyMicros (applyMicros st.snapshot (cycleSteps o))
              (os.map cycleSteps).flatten := by
            rw [fetchData_snapshot_micro]
        _ = applyMicros st.snapshot ((o :: os).map cycleSteps).flatten := by
            rw [List.map_cons, List.flatten_cons, applyMicros_append]

end EverhourDashboard
